import Mathlib

/-!
Verification development for the core of `shitty-discord.py`:
the RFC 6455 frame codec and receive state machine
(`src/snakecord/connection.py`), the per-bucket rate limiter
(`src/lib/rest.py`), the heartbeat handler, the WebSocket upgrade
handshake, and the snowflake decoder (`src/snakecord/utils.py`).

Each definition is a shallow embedding of the corresponding Python
function; doc comments cite the source location it was translated from.
Python byte strings are modelled as `List Nat` (each element a byte
value); Python floats, where only exact arithmetic on them matters, as
`ℚ`, with the `float('inf')` sentinel modelled by the dedicated type
`EVal` below.
-/

/-- Models Python's `float` as used by the rate limiter and heartbeat
handler: either the sentinel `float('inf')` or an exact number.
The source only ever compares these values and subtracts `1`,
so `inf` needs no further arithmetic. -/
inductive EVal
  | inf
  | val (q : ℚ)
deriving DecidableEq

/-- Computes `x <= 0` on an `EVal`, as Python evaluates it (`inf <= 0` is false). -/
def EVal.leZero : EVal → Bool
  | .inf => false
  | .val q => decide (q ≤ 0)

/-- Computes `x - 1` on an `EVal` (`inf - 1 == inf` in Python float arithmetic). -/
def EVal.sub1 : EVal → EVal
  | .inf => .inf
  | .val q => .val (q - 1)

/-- Computes `0 <= x` on an `EVal` (`inf` counts as non-negative). -/
def EVal.nonneg : EVal → Bool
  | .inf => true
  | .val q => decide (0 ≤ q)

/-! ## Frame codec (`src/snakecord/connection.py`, `WebsocketFrame`) -/

/-- Models `WebsocketFrame.get_fin` (connection.py line 33): `byte & 0b10000000`. -/
def get_fin (b : Nat) : Nat := b &&& 0b10000000

/-- Models `WebsocketFrame.get_rsv1` (connection.py line 37): `byte & 0b01000000`. -/
def get_rsv1 (b : Nat) : Nat := b &&& 0b01000000

/-- Models `WebsocketFrame.get_rsv2` (connection.py line 41): `byte & 0b00100000`. -/
def get_rsv2 (b : Nat) : Nat := b &&& 0b00100000

/-- Models `WebsocketFrame.get_rsv3` (connection.py line 45): `byte & 0b00010000`. -/
def get_rsv3 (b : Nat) : Nat := b &&& 0b00010000

/-- Models `WebsocketFrame.get_opcode` (connection.py line 49): `byte & 0b00001111`. -/
def get_opcode (b : Nat) : Nat := b &&& 0b00001111

/-- Models `WebsocketFrame.get_mask` (connection.py line 53): `byte & 0b10000000`. -/
def get_mask (b : Nat) : Nat := b &&& 0b10000000

/-- Models `WebsocketFrame.get_length` (connection.py line 57): `byte & 0b01111111`. -/
def get_length (b : Nat) : Nat := b &&& 0b01111111

/-- Helper for `apply_mask`, tracking the running index `i` of the Python
loop `for i in range(len(data)): data[i] ^= mask[i % 4]`. -/
def apply_mask_from (mask : List Nat) (i : Nat) : List Nat → List Nat
  | [] => []
  | b :: rest => (b ^^^ mask.getD (i % 4) 0) :: apply_mask_from mask (i + 1) rest

/-- Models `WebsocketFrame.apply_mask` (connection.py lines 60-63): XORs each
byte of `data` with `mask[i % 4]`. -/
def apply_mask (mask data : List Nat) : List Nat := apply_mask_from mask 0 data

/-- Python's `n.to_bytes(size, 'big', signed=False)`: big-endian byte list
of fixed width.  (The Python call raises `OverflowError` when
`n >= 256 ^ size`; `create_frame` models that case with `none`.) -/
def to_bytes_be : Nat → Nat → List Nat
  | 0, _ => []
  | k + 1, n => to_bytes_be k (n / 256) ++ [n % 256]

/-- Python's `int.from_bytes(bs, 'big', signed=False)`. -/
def from_bytes_be (bs : List Nat) : Nat := bs.foldl (fun acc b => acc * 256 + b) 0

/-- First header byte built by `WebsocketFrame.create_frame`
(connection.py lines 71-85): the sequence of `buffer[0] |= ...`
statements for FIN, RSV1-3 and the opcode. -/
def frame_b0 (opcode : Nat) (fin rsv1 rsv2 rsv3 : Bool) : Nat :=
  let b := 0
  let b := if fin then b ||| 0b10000000 else b
  let b := if rsv1 then b ||| 0b01000000 else b
  let b := if rsv2 then b ||| 0b00100000 else b
  let b := if rsv3 then b ||| 0b00010000 else b
  b ||| opcode

/-- Models `WebsocketFrame.create_frame` (connection.py lines 65-111).
The 4 random bytes drawn by `os.urandom(4)` are passed in as `mask`.
Returns `none` exactly when `length.to_bytes(8, 'big')` would raise
`OverflowError` (payload length `≥ 2^64`). -/
def create_frame (data : List Nat) (opcode : Nat)
    (fin rsv1 rsv2 rsv3 masked : Bool) (mask : List Nat) : Option (List Nat) :=
  let b0 := frame_b0 opcode fin rsv1 rsv2 rsv3
  let b1 := if masked then 0b10000000 else 0
  let length := data.length
  let header? : Option (List Nat) :=
    if length ≤ 125 then some [b0, b1 ||| length]
    else if length ≤ 0xFFFF then some ([b0, b1 ||| 126] ++ to_bytes_be 2 length)
    else if length < 2 ^ 64 then some ([b0, b1 ||| 127] ++ to_bytes_be 8 length)
    else none
  match header? with
  | none => none
  | some header =>
    if masked then some (header ++ mask ++ apply_mask mask data)
    else some (header ++ data)

/-- In-progress frame of the receive state machine: the attributes the
Python code stores on `self.frame` (connection.py lines 125, 136-188). -/
structure Frame where
  fbyte : Nat
  sbyte : Nat
  length : Nat
  length_buffer : List Nat
  data : List Nat
  bytes_needed : Nat
deriving DecidableEq

/-- A freshly constructed `WebsocketFrame()` with no bytes consumed yet. -/
def Frame.init : Frame := ⟨0, 0, 0, [], [], 0⟩

/-- Models `WebsocketProtocolState` (connection.py lines 114-118). -/
inductive PState
  | waiting_fbyte
  | waiting_sbyte
  | waiting_length
  | waiting_data
deriving DecidableEq

/-- Termination rank of a protocol state: the only steps of
`create_frames` that consume no input byte move strictly down this rank
(`WAITING_LENGTH → WAITING_DATA → WAITING_FBYTE` on a zero-byte need). -/
def PState.rank : PState → Nat
  | .waiting_fbyte => 0
  | .waiting_sbyte => 0
  | .waiting_data => 1
  | .waiting_length => 2

/-- Models `WebsocketProtocol.create_frames` (connection.py lines 129-191): the
byte-driven state machine.  One recursive call corresponds to one pass
through the `while True` loop body; the slice
`data[position:position + bytes_needed]` is `(b :: rest).take`.
Returns the final in-progress frame, the final state, and the list of
completed frames pushed via `ws_frame_receive`, in order. -/
def create_frames (fr : Frame) (st : PState) (data : List Nat) :
    Frame × PState × List Frame :=
  match data with
  | [] => (fr, st, [])
  | b :: rest =>
    match st with
    | .waiting_fbyte =>
      create_frames { fr with fbyte := b } .waiting_sbyte rest
    | .waiting_sbyte =>
      let len := get_length b
      if len > 125 then
        let bn := if len = 126 then 2 else 8
        create_frames
          { fr with sbyte := b, data := [], length := len,
                    length_buffer := [], bytes_needed := bn }
          .waiting_length rest
      else
        create_frames
          { fr with sbyte := b, data := [], length := len, bytes_needed := len }
          .waiting_data rest
    | .waiting_length =>
      let chunk := (b :: rest).take fr.bytes_needed
      let rest2 := (b :: rest).drop fr.bytes_needed
      let bn := fr.bytes_needed - chunk.length
      let lb := fr.length_buffer ++ chunk
      if bn = 0 then
        let len := from_bytes_be lb
        create_frames
          { fr with length_buffer := lb, length := len, bytes_needed := len }
          .waiting_data rest2
      else
        create_frames { fr with length_buffer := lb, bytes_needed := bn }
          .waiting_length rest2
    | .waiting_data =>
      let chunk := (b :: rest).take fr.bytes_needed
      let rest2 := (b :: rest).drop fr.bytes_needed
      let bn := fr.bytes_needed - chunk.length
      let d := fr.data ++ chunk
      if bn = 0 then
        let done : Frame := { fr with data := d, bytes_needed := 0 }
        let next := create_frames Frame.init .waiting_fbyte rest2
        (next.1, next.2.1, done :: next.2.2)
      else
        create_frames { fr with data := d, bytes_needed := bn } .waiting_data rest2
termination_by 3 * data.length + st.rank
decreasing_by
  all_goals simp only [List.length_cons, List.length_drop, List.length_take, PState.rank]
  all_goals omega

/-! ### Single-step unfolding lemmas for `create_frames` -/

theorem create_frames_nil (fr : Frame) (st : PState) :
    create_frames fr st [] = (fr, st, []) := by
  rw [create_frames]

theorem create_frames_fbyte (fr : Frame) (b : Nat) (rest : List Nat) :
    create_frames fr .waiting_fbyte (b :: rest) =
      create_frames { fr with fbyte := b } .waiting_sbyte rest := by
  rw [create_frames]

theorem create_frames_sbyte_small (fr : Frame) (b : Nat) (rest : List Nat)
    (h : ¬ get_length b > 125) :
    create_frames fr .waiting_sbyte (b :: rest) =
      create_frames
        { fr with sbyte := b, data := [], length := get_length b,
                  bytes_needed := get_length b }
        .waiting_data rest := by
  rw [create_frames]
  simp [h]

theorem create_frames_sbyte_ext (fr : Frame) (b : Nat) (rest : List Nat)
    (h : get_length b > 125) :
    create_frames fr .waiting_sbyte (b :: rest) =
      create_frames
        { fr with sbyte := b, data := [], length := get_length b,
                  length_buffer := [],
                  bytes_needed := if get_length b = 126 then 2 else 8 }
        .waiting_length rest := by
  rw [create_frames]
  simp [h]

theorem create_frames_data_take (fr : Frame) (p rest : List Nat)
    (hne : p ≠ []) (hbn : fr.bytes_needed = p.length) :
    create_frames fr .waiting_data (p ++ rest) =
      ((create_frames Frame.init .waiting_fbyte rest).1,
       (create_frames Frame.init .waiting_fbyte rest).2.1,
       { fr with data := fr.data ++ p, bytes_needed := 0 } ::
         (create_frames Frame.init .waiting_fbyte rest).2.2) := by
  obtain ⟨b, t, rfl⟩ := List.exists_cons_of_ne_nil hne
  rw [List.cons_append, create_frames]
  simp only [← List.cons_append, hbn, List.take_left, List.drop_left,
    Nat.sub_self, if_pos rfl]
  simp

theorem create_frames_data_exact (fr : Frame) (p : List Nat)
    (hne : p ≠ []) (hbn : fr.bytes_needed = p.length) :
    create_frames fr .waiting_data p =
      (Frame.init, .waiting_fbyte,
       [{ fr with data := fr.data ++ p, bytes_needed := 0 }]) := by
  have h := create_frames_data_take fr p [] hne hbn
  rw [List.append_nil] at h
  rw [h, create_frames_nil]

theorem create_frames_data_partial (fr : Frame) (d : List Nat)
    (hne : d ≠ []) (hlt : d.length < fr.bytes_needed) :
    create_frames fr .waiting_data d =
      ({ fr with data := fr.data ++ d,
                 bytes_needed := fr.bytes_needed - d.length },
       .waiting_data, []) := by
  obtain ⟨b, t, rfl⟩ := List.exists_cons_of_ne_nil hne
  rw [create_frames]
  have htake : (b :: t).take fr.bytes_needed = b :: t :=
    List.take_of_length_le (Nat.le_of_lt hlt)
  have hdrop : (b :: t).drop fr.bytes_needed = [] :=
    List.drop_eq_nil_of_le (Nat.le_of_lt hlt)
  simp only [htake, hdrop]
  have hne0 : fr.bytes_needed - (b :: t).length ≠ 0 := by
    simp only [List.length_cons] at hlt ⊢
    omega
  simp only [if_neg hne0, create_frames_nil]

theorem create_frames_length_exact (fr : Frame) (ext payload : List Nat)
    (hne : ext ≠ []) (hbn : fr.bytes_needed = ext.length) :
    create_frames fr .waiting_length (ext ++ payload) =
      create_frames
        { fr with length_buffer := fr.length_buffer ++ ext,
                  length := from_bytes_be (fr.length_buffer ++ ext),
                  bytes_needed := from_bytes_be (fr.length_buffer ++ ext) }
        .waiting_data payload := by
  obtain ⟨b, t, rfl⟩ := List.exists_cons_of_ne_nil hne
  rw [List.cons_append, create_frames]
  simp only [← List.cons_append, hbn, List.take_left, List.drop_left,
    Nat.sub_self, if_pos rfl]
  simp

/-! ### Arithmetic facts about the codec -/

theorem get_length_of_le (n : Nat) (h : n ≤ 127) : get_length n = n := by
  have : (127 : Nat) = 2 ^ 7 - 1 := by norm_num
  rw [get_length, this, Nat.and_pow_two_sub_one_eq_mod]
  omega

theorem to_bytes_be_length (k n : Nat) : (to_bytes_be k n).length = k := by
  induction k generalizing n with
  | zero => rfl
  | succ k ih => simp [to_bytes_be, ih]

theorem from_bytes_be_append_one (bs : List Nat) (b : Nat) :
    from_bytes_be (bs ++ [b]) = from_bytes_be bs * 256 + b := by
  simp [from_bytes_be, List.foldl_append]

theorem from_to_bytes_be (k n : Nat) (h : n < 256 ^ k) :
    from_bytes_be (to_bytes_be k n) = n := by
  induction k generalizing n with
  | zero =>
    simp only [Nat.pow_zero, Nat.lt_one_iff] at h
    simp [h, to_bytes_be, from_bytes_be]
  | succ k ih =>
    rw [to_bytes_be, from_bytes_be_append_one, ih]
    · omega
    · have : 256 ^ (k + 1) = 256 * 256 ^ k := by ring
      rw [this] at h
      exact Nat.div_lt_of_lt_mul h

/-- Exhaustive check of the bit-accessor identities on the first header
byte built by `create_frame`, for every opcode below 16 and every
combination of FIN/RSV flags. -/
theorem frame_b0_bits : ∀ op, op < 16 → ∀ fin rsv1 rsv2 rsv3 : Bool,
    get_opcode (frame_b0 op fin rsv1 rsv2 rsv3) = op ∧
    get_fin (frame_b0 op fin rsv1 rsv2 rsv3) = (if fin then 128 else 0) ∧
    get_rsv1 (frame_b0 op fin rsv1 rsv2 rsv3) = (if rsv1 then 64 else 0) ∧
    get_rsv2 (frame_b0 op fin rsv1 rsv2 rsv3) = (if rsv2 then 32 else 0) ∧
    get_rsv3 (frame_b0 op fin rsv1 rsv2 rsv3) = (if rsv3 then 16 else 0) := by
  decide

/-! ### Decoding a single well-formed unmasked frame -/

theorem decode_small (b0 : Nat) (p : List Nat) (hne : p ≠ [])
    (h : p.length ≤ 125) :
    create_frames Frame.init .waiting_fbyte (b0 :: p.length :: p) =
      (Frame.init, .waiting_fbyte, [⟨b0, p.length, p.length, [], p, 0⟩]) := by
  have hg : get_length p.length = p.length := get_length_of_le _ (by omega)
  rw [create_frames_fbyte, create_frames_sbyte_small _ _ _ (by omega)]
  rw [create_frames_data_exact _ _ hne (by simp [hg])]
  simp [Frame.init, hg]

theorem decode_ext16 (b0 : Nat) (p : List Nat) (hne : p ≠ [])
    (h1 : 125 < p.length) (h2 : p.length ≤ 0xFFFF) :
    create_frames Frame.init .waiting_fbyte
        (b0 :: 126 :: (to_bytes_be 2 p.length ++ p)) =
      (Frame.init, .waiting_fbyte,
       [⟨b0, 126, p.length, to_bytes_be 2 p.length, p, 0⟩]) := by
  have hext : (to_bytes_be 2 p.length).length = 2 := to_bytes_be_length 2 _
  have hextne : to_bytes_be 2 p.length ≠ [] := by
    intro hcon
    rw [hcon] at hext
    simp at hext
  have hfb : from_bytes_be (to_bytes_be 2 p.length) = p.length :=
    from_to_bytes_be 2 _ (by omega)
  rw [create_frames_fbyte, create_frames_sbyte_ext _ _ _ (by decide)]
  rw [create_frames_length_exact _ _ _ hextne (by simp [hext]; decide)]
  rw [create_frames_data_exact _ _ hne (by simp [hfb])]
  simp [Frame.init, hfb]

theorem decode_ext64 (b0 : Nat) (p : List Nat) (hne : p ≠ [])
    (h1 : 0xFFFF < p.length) (h2 : p.length < 2 ^ 64) :
    create_frames Frame.init .waiting_fbyte
        (b0 :: 127 :: (to_bytes_be 8 p.length ++ p)) =
      (Frame.init, .waiting_fbyte,
       [⟨b0, 127, p.length, to_bytes_be 8 p.length, p, 0⟩]) := by
  have hext : (to_bytes_be 8 p.length).length = 8 := to_bytes_be_length 8 _
  have hextne : to_bytes_be 8 p.length ≠ [] := by
    intro hcon
    rw [hcon] at hext
    simp at hext
  have hfb : from_bytes_be (to_bytes_be 8 p.length) = p.length := by
    refine from_to_bytes_be 8 _ ?_
    have : (256 : Nat) ^ 8 = 2 ^ 64 := by norm_num
    omega
  rw [create_frames_fbyte, create_frames_sbyte_ext _ _ _ (by decide)]
  rw [create_frames_length_exact _ _ _ hextne (by simp [hext]; decide)]
  rw [create_frames_data_exact _ _ hne (by simp [hfb])]
  simp [Frame.init, hfb]

/-- C1 (amended): frame round-trip holds for unmasked frames with a
non-empty payload.  For every payload `p` with `p ≠ []` and
`p.length < 2^64` (larger payloads make `create_frame` raise
`OverflowError`) and every opcode below 16, feeding the bytes produced by
`WebsocketFrame.create_frame(p, masked=False)` into the receive state
machine `create_frames` yields exactly one decoded frame whose payload
equals `p` and whose opcode, FIN and RSV flags equal those supplied.
(As stated for every masking flag the claim is false: the decoder ignores
the MASK bit, and an empty unmasked frame is not emitted at all — see the
counterexample.) -/
theorem frame_roundtrip_unmasked (p : List Nat) (opcode : Nat)
    (fin rsv1 rsv2 rsv3 : Bool) (hne : p ≠ []) (hlen : p.length < 2 ^ 64)
    (hop : opcode < 16) :
    ∃ bs f, create_frame p opcode fin rsv1 rsv2 rsv3 false [] = some bs ∧
      create_frames Frame.init .waiting_fbyte bs =
        (Frame.init, .waiting_fbyte, [f]) ∧
      f.data = p ∧ get_opcode f.fbyte = opcode ∧
      (get_fin f.fbyte ≠ 0 ↔ fin = true) ∧
      (get_rsv1 f.fbyte ≠ 0 ↔ rsv1 = true) ∧
      (get_rsv2 f.fbyte ≠ 0 ↔ rsv2 = true) ∧
      (get_rsv3 f.fbyte ≠ 0 ↔ rsv3 = true) := by
  obtain ⟨hopc, hfin, hr1, hr2, hr3⟩ := frame_b0_bits opcode hop fin rsv1 rsv2 rsv3
  set b0 := frame_b0 opcode fin rsv1 rsv2 rsv3 with hb0
  have hfin' : (get_fin b0 ≠ 0 ↔ fin = true) := by
    rw [hfin]; cases fin <;> simp
  have hr1' : (get_rsv1 b0 ≠ 0 ↔ rsv1 = true) := by
    rw [hr1]; cases rsv1 <;> simp
  have hr2' : (get_rsv2 b0 ≠ 0 ↔ rsv2 = true) := by
    rw [hr2]; cases rsv2 <;> simp
  have hr3' : (get_rsv3 b0 ≠ 0 ↔ rsv3 = true) := by
    rw [hr3]; cases rsv3 <;> simp
  by_cases h125 : p.length ≤ 125
  · refine ⟨b0 :: p.length :: p, ⟨b0, p.length, p.length, [], p, 0⟩,
      ?_, decode_small b0 p hne h125, rfl, hopc, hfin', hr1', hr2', hr3'⟩
    simp [create_frame, h125, Nat.zero_or]
  · by_cases h16 : p.length ≤ 0xFFFF
    · refine ⟨b0 :: 126 :: (to_bytes_be 2 p.length ++ p),
        ⟨b0, 126, p.length, to_bytes_be 2 p.length, p, 0⟩,
        ?_, decode_ext16 b0 p hne (by omega) h16, rfl, hopc, hfin', hr1', hr2', hr3'⟩
      simp [create_frame, h125, h16, Nat.zero_or]
    · refine ⟨b0 :: 127 :: (to_bytes_be 8 p.length ++ p),
        ⟨b0, 127, p.length, to_bytes_be 8 p.length, p, 0⟩,
        ?_, decode_ext64 b0 p hne (by omega) hlen, rfl, hopc, hfin', hr1', hr2', hr3'⟩
      simp [create_frame, h125, h16, Nat.zero_or]
      have hlt : p.length < 18446744073709551616 := by omega
      rw [if_pos hlt]
      simp

/-- Witness for `frame_roundtrip_unmasked` at the concrete payload
`[104, 105]`, opcode `1` (TEXT), FIN set, RSV clear. -/
theorem frame_roundtrip_unmasked_witness :
    ([104, 105] : List Nat) ≠ [] ∧ ([104, 105] : List Nat).length < 2 ^ 64 ∧
      (1 : Nat) < 16 ∧
      (∃ bs f, create_frame [104, 105] 1 true false false false false [] = some bs ∧
        create_frames Frame.init .waiting_fbyte bs =
          (Frame.init, .waiting_fbyte, [f]) ∧
        f.data = [104, 105] ∧ get_opcode f.fbyte = 1 ∧
        (get_fin f.fbyte ≠ 0 ↔ true = true) ∧
        (get_rsv1 f.fbyte ≠ 0 ↔ false = true) ∧
        (get_rsv2 f.fbyte ≠ 0 ↔ false = true) ∧
        (get_rsv3 f.fbyte ≠ 0 ↔ false = true)) :=
  ⟨by decide, by decide, by decide,
   frame_roundtrip_unmasked [104, 105] 1 true false false false
     (by decide) (by decide) (by decide)⟩

/-- C1 counterexample.  The claim fails as stated, at two concrete inputs:

* masked frames: `create_frame([0], masked=True)` with mask bytes
  `[1, 2, 3, 4]` produces `[129, 129, 1, 2, 3, 4, 1]`; the receive state
  machine never inspects the MASK bit, so it consumes the mask byte `1`
  as the payload and decodes one frame with payload `[1] ≠ [0]` (the
  remaining four bytes are misparsed as the start of a second frame);

* the empty unmasked frame: `create_frame([], masked=False) = [129, 0]`
  decodes to **zero** frames, not one — `create_frames` returns at the
  end of input before the zero-length payload check can emit the frame. -/
theorem frame_roundtrip_counterexample :
    (create_frame [0] 1 true false false false true [1, 2, 3, 4] =
      some [129, 129, 1, 2, 3, 4, 1]) ∧
    ((create_frames Frame.init .waiting_fbyte
        [129, 129, 1, 2, 3, 4, 1]).2.2.map Frame.data = [[1]]) ∧
    ([[1]] ≠ [([0] : List Nat)]) ∧
    (create_frame [] 1 true false false false false [] = some [129, 0]) ∧
    ((create_frames Frame.init .waiting_fbyte [129, 0]).2.2 = []) := by
  refine ⟨by decide, ?_, by decide, by decide, ?_⟩
  · have h1 : (129 : Nat) &&& 127 = 1 := by decide
    have h3 : (3 : Nat) &&& 127 = 3 := by decide
    simp [create_frames, get_length, Frame.init, h1, h3]
  · simp [create_frames, get_length, Frame.init]

/-- C10: masking is an involution.  For every mask and every byte buffer,
applying `WebsocketFrame.apply_mask` twice with the same mask restores
the buffer (each byte is XORed with `mask[i % 4]`, and XOR is
self-inverse). -/
theorem apply_mask_involution (mask data : List Nat) :
    apply_mask mask (apply_mask mask data) = data := by
  suffices h : ∀ i d, apply_mask_from mask i (apply_mask_from mask i d) = d by
    exact h 0 data
  intro i d
  induction d generalizing i with
  | nil => rfl
  | cons b rest ih =>
    simp only [apply_mask_from, ih]
    congr 1
    rw [Nat.xor_assoc, Nat.xor_self, Nat.xor_zero]

/-! ## Rate limiter (`src/lib/rest.py`) -/

/-- A queued request is identified by a number (the Python object
identity of the `functools.partial` request closure). -/
abbrev ReqId := Nat

/-- State of one `Ratelimiter` bucket (rest.py lines 12-29).

`current_burst_task` models `self.current_burst_task is not None`.
`burst_tasks` is a ghost counter of `do_burst` tasks that have been
created (via `loop.create_task`) and have not yet finished; the source
keeps no such counter, but it makes the "at most one burst task"
claim statable. -/
structure Ratelimiter where
  limit : EVal
  remaining : EVal
  reset : EVal
  new_headers : Bool
  queue : List ReqId
  current_burst_task : Bool
  made_first_request : Bool
  burst_tasks : Nat
deriving DecidableEq

/-- A freshly constructed `Ratelimiter` (rest.py lines 13-29):
`limit = remaining = reset = float('inf')`, empty queue, no burst task,
`made_first_request = False`. -/
def Ratelimiter.init : Ratelimiter :=
  { limit := .inf, remaining := .inf, reset := .inf, new_headers := false,
    queue := [], current_burst_task := false, made_first_request := false,
    burst_tasks := 0 }

/-- Models `Ratelimiter.ready` (rest.py lines 44-53): all of `limit`, `_reset`
and `_remaining` differ from `float('inf')`. -/
def Ratelimiter.ready (rl : Ratelimiter) : Bool :=
  decide (rl.limit ≠ EVal.inf) && decide (rl.reset ≠ EVal.inf) &&
    decide (rl.remaining ≠ EVal.inf)

/-- Models `Ratelimiter._burst_run_once` (rest.py lines 65-69): `queue.pop(0)`
pops the FRONT of the queue and dispatches it; `none` models the
`IndexError` raised on an empty queue. -/
def burst_run_once (q : List ReqId) : Option (ReqId × List ReqId) :=
  match q with
  | [] => none
  | r :: rest => some (r, rest)

/-- Models `Ratelimiter.request` (rest.py lines 88-95): append the request to
the queue tail, then spawn `do_burst` when `made_first_request` is false
(unconditionally, without recording it in `current_burst_task`), or else
when `current_burst_task is None` (recording it).  The returned `Bool`
tells whether a new `do_burst` task was created. -/
def Ratelimiter.request (rl : Ratelimiter) (req : ReqId) : Ratelimiter × Bool :=
  let rl := { rl with queue := rl.queue ++ [req] }
  if !rl.made_first_request then
    ({ rl with burst_tasks := rl.burst_tasks + 1 }, true)
  else if !rl.current_burst_task then
    ({ rl with current_burst_task := true, burst_tasks := rl.burst_tasks + 1 }, true)
  else
    (rl, false)

/-- Values of `self.remaining` observed by the drain loop of `do_burst`
after each of its awaits.  While the loop is suspended at
`asyncio.sleep(0)`, `wait_for_headers()` or `asyncio.sleep(reset_after)`,
the `_request` callbacks of in-flight requests may assign
`self.remaining`; these two fields record the value the loop reads back
on resumption (`afterYield` at the `remaining <= 0` check, `afterSleep`
at the `remaining -= 1` decrement of the waiting branch). -/
structure BurstEnv where
  afterYield : EVal
  afterSleep : EVal
deriving DecidableEq

/-- Observable actions of `do_burst`, in program order. -/
inductive BurstAct
  | yieldOnce
  | waitHeaders
  | sleepReset
  | dispatch (r : ReqId)
deriving DecidableEq

/-- One iteration of the drain loop of `Ratelimiter.do_burst`
(rest.py lines 79-85):

```
await asyncio.sleep(0)
if self.remaining <= 0:
    await self.wait_for_headers()
    await asyncio.sleep(self.reset_after)
self.remaining -= 1
self._burst_run_once()
```

`r` is the queue head popped by `_burst_run_once`.  Returns the value of
`self.remaining` after the iteration and the emitted actions. -/
def burst_iter (e : BurstEnv) (r : ReqId) : EVal × List BurstAct :=
  if e.afterYield.leZero then
    (e.afterSleep.sub1,
     [.yieldOnce, .waitHeaders, .sleepReset, .dispatch r])
  else
    (e.afterYield.sub1, [.yieldOnce, .dispatch r])

/-- The full drain loop `while self.queue: ...` of `do_burst`, iterating
`burst_iter` until the queue (to which this model adds no concurrent
enqueues) is empty.  When the environment trace `envs` runs out, the
remaining iterations observe no concurrent mutation of
`self.remaining`. -/
def drain (rem : EVal) (envs : List BurstEnv) (q : List ReqId) :
    EVal × List BurstAct :=
  match q with
  | [] => (rem, [])
  | r :: rest =>
    let e := envs.headD ⟨rem, rem⟩
    let step := burst_iter e r
    let tail := drain step.1 envs.tail rest
    (tail.1, step.2 ++ tail.2)

/-- Models `Ratelimiter.do_burst` (rest.py lines 71-86).  With
`made_first_request` false it runs `_burst_run_once()` once (popping the
queue front; `none` models the `IndexError` on an empty queue), marks
`made_first_request`, and returns without touching the rest of the
queue.  Otherwise it first awaits headers when the bucket is not
`ready` (the value of `self.remaining` observed afterwards is `e0`),
then drains the queue.  In both branches it finally clears
`current_burst_task`. -/
def do_burst (rl : Ratelimiter) (e0 : EVal) (envs : List BurstEnv) :
    Option (Ratelimiter × List BurstAct) :=
  if !rl.made_first_request then
    match burst_run_once rl.queue with
    | none => none
    | some (r, q') =>
      some ({ rl with queue := q', made_first_request := true,
                      current_burst_task := false,
                      burst_tasks := rl.burst_tasks - 1 },
            [.dispatch r])
  else
    let start := if rl.ready then (rl.remaining, ([] : List BurstAct))
                 else (e0, [.waitHeaders])
    let res := drain start.1 envs rl.queue
    some ({ rl with queue := [], remaining := res.1,
                    current_burst_task := false,
                    burst_tasks := rl.burst_tasks - 1 },
          start.2 ++ res.2)

/-- The response information consumed by `RestSession._request`
(rest.py lines 127-149): HTTP status, the `retry_after` field of a 429
body (milliseconds), and the parsed `X-Ratelimit-{Limit,Remaining,Reset}`
headers (absent headers are `none`). -/
structure Response where
  status : Nat
  retry_after : ℚ
  limit_hdr : Option ℤ
  remaining_hdr : Option ℤ
  reset_hdr : Option ℚ

/-- Observable actions of `RestSession._request`. -/
inductive RestAct
  | cancelBurst
  | signalHeaders
  | resubmit (r : ReqId)
deriving DecidableEq

/-- Models `RestSession._request` (rest.py lines 127-149), as a transformer of
the bucket state.  On status 429 it cancels the current burst task when
one exists, sets `remaining = 0` and
`_reset = now + retry_after / 1000`, signals `new_headers`, and
re-submits the original request `req` through `Ratelimiter.request`
(appending it to the queue tail).  On any other status it copies the
rate-limit headers that are present into the bucket and signals
`new_headers`. -/
def rest_request (rl : Ratelimiter) (req : ReqId) (resp : Response)
    (now : ℚ) : Ratelimiter × List RestAct :=
  if resp.status = 429 then
    let cancelActs := if rl.current_burst_task then [RestAct.cancelBurst] else []
    let rl := { rl with remaining := .val 0,
                        reset := .val (now + resp.retry_after / 1000),
                        new_headers := true }
    let rl := (rl.request req).1
    (rl, cancelActs ++ [RestAct.signalHeaders, RestAct.resubmit req])
  else
    let rl := match resp.limit_hdr with
      | some l => { rl with limit := .val l }
      | none => rl
    let rl := match resp.remaining_hdr with
      | some r => { rl with remaining := .val r }
      | none => rl
    let rl := match resp.reset_hdr with
      | some t => { rl with reset := .val t }
      | none => rl
    ({ rl with new_headers := true }, [RestAct.signalHeaders])

/-- C2: on an HTTP 429 response, `RestSession._request` cancels the
bucket's current burst task (if any), sets the bucket's `remaining` to 0
and its reset timestamp to `now + retry_after / 1000` (with `retry_after`
taken from the response body, in milliseconds), signals fresh headers,
and re-submits the original request to the tail of the bucket's queue,
so the request is never lost. -/
theorem rest_request_429_recovery (rl : Ratelimiter) (req : ReqId)
    (resp : Response) (now : ℚ) (h : resp.status = 429) :
    (rest_request rl req resp now).1.remaining = EVal.val 0 ∧
    (rest_request rl req resp now).1.reset =
      EVal.val (now + resp.retry_after / 1000) ∧
    (rest_request rl req resp now).1.new_headers = true ∧
    (rest_request rl req resp now).1.queue = rl.queue ++ [req] ∧
    (rl.current_burst_task = true →
      RestAct.cancelBurst ∈ (rest_request rl req resp now).2) ∧
    RestAct.resubmit req ∈ (rest_request rl req resp now).2 := by
  simp only [rest_request, if_pos h]
  unfold Ratelimiter.request
  by_cases hmfr : rl.made_first_request <;>
    by_cases hcbt : rl.current_burst_task <;>
      simp [hmfr, hcbt]

/-- Concrete bucket used by the 429-recovery witness: one queued
request, a running burst task. -/
def rl429 : Ratelimiter :=
  { Ratelimiter.init with queue := [5], current_burst_task := true }

/-- Concrete 429 response used by the 429-recovery witness. -/
def resp429 : Response :=
  { status := 429, retry_after := 2000, limit_hdr := none,
    remaining_hdr := none, reset_hdr := none }

/-- Witness for `rest_request_429_recovery`: the concrete 429 response
`resp429` (`retry_after = 2000` ms received at `now = 10`) against the
bucket `rl429`. -/
theorem rest_request_429_recovery_witness :
    resp429.status = 429 ∧
    (rest_request rl429 7 resp429 10).1.remaining = EVal.val 0 ∧
    (rest_request rl429 7 resp429 10).1.reset =
      EVal.val (10 + 2000 / 1000) ∧
    (rest_request rl429 7 resp429 10).1.new_headers = true ∧
    (rest_request rl429 7 resp429 10).1.queue = [5, 7] ∧
    RestAct.cancelBurst ∈ (rest_request rl429 7 resp429 10).2 ∧
    RestAct.resubmit 7 ∈ (rest_request rl429 7 resp429 10).2 := by
  obtain ⟨h1, h2, h3, h4, h5, h6⟩ :=
    rest_request_429_recovery rl429 7 resp429 10 rfl
  refine ⟨rfl, h1, ?_, h3, ?_, h5 rfl, h6⟩
  · rw [h2]
    norm_num [resp429]
  · rw [h4]
    rfl

/-! ## Per-bucket queue discipline (C3) -/

/-- History of one bucket's queue: everything ever enqueued by
`Ratelimiter.request` (in order), the current queue, and everything
dispatched by `_burst_run_once` (in order). -/
structure QueueTrace where
  enq : List ReqId
  queue : List ReqId
  disp : List ReqId
deriving DecidableEq

/-- Atomic events touching a bucket's queue, as the source performs
them on the single event loop: `Ratelimiter.request` appends to the
tail (rest.py line 90), and a burst task's `_burst_run_once` pops the
front via `queue.pop(0)` and immediately starts the underlying HTTP
call (rest.py lines 65-69).  Enqueues and dispatches may interleave
arbitrarily. -/
inductive QStep : QueueTrace → QueueTrace → Prop
  | enqueue (r : ReqId) (s : QueueTrace) :
      QStep s ⟨s.enq ++ [r], s.queue ++ [r], s.disp⟩
  | dispatch (s : QueueTrace) (r : ReqId) (q' : List ReqId)
      (h : burst_run_once s.queue = some (r, q')) :
      QStep s ⟨s.enq, q', s.disp ++ [r]⟩

/-- Queue histories reachable from a fresh bucket. -/
inductive QReach : QueueTrace → Prop
  | init : QReach ⟨[], [], []⟩
  | step {s s' : QueueTrace} : QReach s → QStep s s' → QReach s'

/-- C3: per-bucket FIFO.  In every reachable queue history, the
dispatched requests followed by the still-queued requests equal the
enqueued requests in submission order — so the drainer dispatches
requests in exactly the order they were enqueued and never reorders
the queue. -/
theorem bucket_fifo (s : QueueTrace) (h : QReach s) :
    s.disp ++ s.queue = s.enq := by
  induction h with
  | init => rfl
  | step hr hs ih =>
    cases hs with
    | enqueue r =>
      dsimp only
      simp only [← List.append_assoc, ih]
    | dispatch t r q' hpop =>
      dsimp only
      unfold burst_run_once at hpop
      split at hpop
      · exact absurd hpop (by simp)
      · rename_i a tl hq
        simp only [Option.some.injEq, Prod.mk.injEq] at hpop
        obtain ⟨rfl, rfl⟩ := hpop
        rw [← ih, hq]
        simp

/-- Witness for `bucket_fifo`: enqueue requests `1` then `2`, dispatch
once; the dispatched prefix `[1]` plus the queue `[2]` equals the
enqueue order `[1, 2]`. -/
theorem bucket_fifo_witness :
    QReach ⟨[1, 2], [2], [1]⟩ ∧
    ([1] : List ReqId) ++ [2] = [1, 2] := by
  have h0 : QReach ⟨[], [], []⟩ := QReach.init
  have h1 : QReach ⟨[1], [1], []⟩ := QReach.step h0 (QStep.enqueue 1 _)
  have h2 : QReach ⟨[1, 2], [1, 2], []⟩ := QReach.step h1 (QStep.enqueue 2 _)
  have h3 : QReach ⟨[1, 2], [2], [1]⟩ :=
    QReach.step h2 (QStep.dispatch _ 1 [2] rfl)
  exact ⟨h3, bucket_fifo _ h3⟩

/-- C4: cold-start policy.  When `made_first_request` is false and the
queue holds `r :: rest`, `do_burst` dispatches exactly `r` — its action
trace is `[dispatch r]`, containing no header wait and no sleep — sets
`made_first_request`, and returns leaving every other queued request
(`rest`) in the queue for a later burst. -/
theorem do_burst_cold_start (rl : Ratelimiter) (e0 : EVal)
    (envs : List BurstEnv) (r : ReqId) (rest : List ReqId)
    (hmfr : rl.made_first_request = false) (hq : rl.queue = r :: rest) :
    do_burst rl e0 envs =
      some ({ rl with queue := rest, made_first_request := true,
                      current_burst_task := false,
                      burst_tasks := rl.burst_tasks - 1 },
            [BurstAct.dispatch r]) := by
  simp [do_burst, hmfr, hq, burst_run_once]

/-- Witness for `do_burst_cold_start`: a fresh bucket with queued
requests `[7, 8]` dispatches exactly `7` and leaves `[8]` queued. -/
theorem do_burst_cold_start_witness :
    (do_burst { Ratelimiter.init with queue := [7, 8] } EVal.inf []).map
        (fun x => (x.1.queue, x.1.made_first_request, x.2)) =
      some ([8], true, [BurstAct.dispatch 7]) := by
  rw [do_burst_cold_start { Ratelimiter.init with queue := [7, 8] }
    EVal.inf [] 7 [8] rfl rfl]
  rfl

/-- C6 counterexample.  The drain loop CAN decrement `remaining` below 0.
Concretely: with `remaining = 0` at the check, the drainer waits for
fresh headers and sleeps; if the headers leave `remaining` at 0 (exactly
what the 429 handler writes before signalling), the unguarded
`self.remaining -= 1` then drives it to `-1 < 0`.  Embedded in a full
`do_burst` run on a ready bucket with one queued request. -/
theorem drainer_floor_counterexample :
    (burst_iter ⟨EVal.val 0, EVal.val 0⟩ 5).1 = EVal.val (-1) ∧
    (EVal.val (-1)).nonneg = false ∧
    (do_burst
        { Ratelimiter.init with
            made_first_request := true
            limit := EVal.val 5
            reset := EVal.val 0
            remaining := EVal.val 0
            queue := [5] }
        EVal.inf [⟨EVal.val 0, EVal.val 0⟩]).map
        (fun x => x.1.remaining) = some (EVal.val (-1)) := by
  refine ⟨?_, by decide, ?_⟩
  · simp [burst_iter, EVal.leZero, EVal.sub1]
  · simp only [do_burst, Ratelimiter.ready, drain, burst_iter,
      EVal.leZero, EVal.sub1, Ratelimiter.init]
    norm_num

/-- The post-iteration value of `remaining`: the value read at the
decrement (after the waiting branch's awaits, when taken) minus 1. -/
theorem burst_iter_fst (e : BurstEnv) (r : ReqId) :
    (burst_iter e r).1 =
      (if e.afterYield.leZero then e.afterSleep else e.afterYield).sub1 := by
  by_cases hy : e.afterYield.leZero <;> simp [burst_iter, hy]

/-- C6 (amended): one iteration of the drain loop decrements `remaining`
by exactly 1, reading the value current after its awaits: when
`remaining ≤ 0` at the check, the drainer does wait for fresh headers
and sleep until the reset time before dispatching (its action trace is
exactly `[yield, waitHeaders, sleepReset, dispatch r]`), but it does not
re-check after waking, so `remaining` stays non-negative after the
decrement only when the value read at the decrement is at least 1 (or
the `inf` sentinel); if fresh headers leave `remaining ≤ 0`, the
decrement drives it below 0. -/
theorem drainer_decrement_props (e : BurstEnv) (r : ReqId) :
    ((burst_iter e r).1 =
      (if e.afterYield.leZero then e.afterSleep else e.afterYield).sub1) ∧
    (e.afterYield.leZero = true →
      (burst_iter e r).2 =
        [BurstAct.yieldOnce, BurstAct.waitHeaders, BurstAct.sleepReset,
         BurstAct.dispatch r]) ∧
    (e.afterYield.leZero = false →
      (burst_iter e r).2 = [BurstAct.yieldOnce, BurstAct.dispatch r]) ∧
    (∀ q : ℚ,
      (if e.afterYield.leZero then e.afterSleep else e.afterYield) =
          EVal.val q →
      1 ≤ q → (burst_iter e r).1.nonneg = true) ∧
    ((if e.afterYield.leZero then e.afterSleep else e.afterYield) =
        EVal.inf → (burst_iter e r).1 = EVal.inf) := by
  refine ⟨burst_iter_fst e r, ?_, ?_, ?_, ?_⟩
  · intro hy
    simp [burst_iter, hy]
  · intro hy
    simp [burst_iter, hy]
  · intro q hval h1
    rw [burst_iter_fst, hval]
    simp [EVal.sub1, EVal.nonneg]
    linarith
  · intro hinf
    rw [burst_iter_fst, hinf]
    simp [EVal.sub1]

/-- Witness for `drainer_decrement_props` at the concrete environment
`afterYield = 0`, `afterSleep = 3`: the branch waits and sleeps before
dispatching, and the decrement of the refreshed value 3 stays
non-negative. -/
theorem drainer_decrement_props_witness :
    (burst_iter ⟨EVal.val 0, EVal.val 3⟩ 9).2 =
      [BurstAct.yieldOnce, BurstAct.waitHeaders, BurstAct.sleepReset,
       BurstAct.dispatch 9] ∧
    (burst_iter ⟨EVal.val 0, EVal.val 3⟩ 9).1.nonneg = true := by
  obtain ⟨h1, h2, h3, h4, h5⟩ :=
    drainer_decrement_props ⟨EVal.val 0, EVal.val 3⟩ 9
  exact ⟨h2 (by decide), h4 3 (by decide) (by norm_num)⟩

/-- C7 counterexample.  Two submissions to a fresh bucket, made before
either spawned task gets to run (so `made_first_request` is still
false), each spawn their own `do_burst` task: after the second call to
`Ratelimiter.request` two burst tasks are alive at once, and the second
spawn happened while the first task was already running, violating both
halves of the claim. -/
theorem burst_task_count_counterexample :
    ((Ratelimiter.init.request 0).1.burst_tasks = 1) ∧
    (((Ratelimiter.init.request 0).1.request 1).2 = true) ∧
    (((Ratelimiter.init.request 0).1.request 1).1.burst_tasks = 2) ∧
    ¬ (2 : Nat) ≤ 1 := by
  refine ⟨?_, ?_, ?_, by decide⟩ <;> rfl

/-- C7 (amended): `Ratelimiter.request` spawns a new burst task whenever
`made_first_request` is false — without consulting
`current_burst_task` — and otherwise exactly when `current_burst_task`
is `None`; every spawn increments the number of live burst tasks.
Consequently, before the first `do_burst` has run, each additional
submission spawns a further concurrent burst task. -/
theorem request_spawn_condition (rl : Ratelimiter) (r : ReqId) :
    ((rl.request r).2 =
      (!rl.made_first_request || !rl.current_burst_task)) ∧
    ((rl.request r).1.burst_tasks =
      if (rl.request r).2 then rl.burst_tasks + 1 else rl.burst_tasks) := by
  by_cases hmfr : rl.made_first_request <;>
    by_cases hcbt : rl.current_burst_task <;>
      simp [Ratelimiter.request, hmfr, hcbt]

/-! ## Heartbeat handler (`src/snakecord/connection.py`, lines 319-375) -/

/-- State of `HeartbeatHandler` (connection.py lines 320-332): the
counters, the monotonic instants (initially `float('inf')`), and the
stopped flag. -/
structure HeartbeatHandler where
  heartbeat_interval : EVal
  heartbeats_sent : Nat
  heartbeats_acked : Nat
  last_sent : EVal
  last_acked : EVal
  stopped : Bool
deriving DecidableEq

/-- A freshly constructed `HeartbeatHandler` (connection.py
lines 325-332). -/
def HeartbeatHandler.init : HeartbeatHandler :=
  { heartbeat_interval := .inf, heartbeats_sent := 0, heartbeats_acked := 0,
    last_sent := .inf, last_acked := .inf, stopped := false }

/-- Models `HeartbeatHandler.send_heartbeat` up to its await (connection.py
lines 341-347): if stopped, do nothing; otherwise record
`last_sent = time.perf_counter()` (`now`) and send the heartbeat
payload.  Note that the source updates no counter here — in
particular it never increments `heartbeats_sent`. -/
def HeartbeatHandler.send_heartbeat (h : HeartbeatHandler) (now : ℚ) :
    HeartbeatHandler :=
  if h.stopped then h else { h with last_sent := .val now }

/-- The success branch of `HeartbeatHandler.wait_ack` (connection.py
lines 354-360): on receiving `heartbeat_ack` record
`last_acked = time.perf_counter()` and increment `heartbeats_acked`. -/
def HeartbeatHandler.wait_ack_success (h : HeartbeatHandler) (now : ℚ) :
    HeartbeatHandler :=
  { h with last_acked := .val now, heartbeats_acked := h.heartbeats_acked + 1 }

/-- Models `HeartbeatHandler.stop` (connection.py lines 368-371): set the
stopped flag (and cancel the pending timer handle). -/
def HeartbeatHandler.stop (h : HeartbeatHandler) : HeartbeatHandler :=
  { h with stopped := true }

/-- The timeout branch of `HeartbeatHandler.wait_ack` (connection.py
lines 361-363): `stop()` and push `connection_stale`. -/
def HeartbeatHandler.wait_ack_timeout (h : HeartbeatHandler) :
    HeartbeatHandler :=
  h.stop

/-- Heartbeat-handler states reachable by the source's own transitions:
sending a heartbeat, acknowledging one (which only happens while
`wait_ack` is pending, i.e. after a send), and timing out. -/
inductive HBReach : HeartbeatHandler → Prop
  | init : HBReach HeartbeatHandler.init
  | send {h : HeartbeatHandler} (t : ℚ) :
      HBReach h → HBReach (h.send_heartbeat t)
  | ackOk {h : HeartbeatHandler} (t : ℚ) :
      HBReach h → HBReach (h.wait_ack_success t)
  | ackTimeout {h : HeartbeatHandler} :
      HBReach h → HBReach h.wait_ack_timeout

/-- C5 (code bug): the claimed invariant `heartbeats_acked ≤
heartbeats_sent` fails on the code.  `HeartbeatHandler.__init__` creates
the counter `heartbeats_sent`, but no statement in the source ever
increments it, while `wait_ack` increments `heartbeats_acked` on every
acknowledged heartbeat.  After the very first send/ack round — a state
reachable through the source's own code path `send_heartbeat` →
`wait_ack` (success) — the handler has `heartbeats_acked = 1 >
heartbeats_sent = 0`. -/
theorem heartbeat_counter_code_bug :
    HBReach ((HeartbeatHandler.init.send_heartbeat 0).wait_ack_success 1) ∧
    ((HeartbeatHandler.init.send_heartbeat 0).wait_ack_success 1).heartbeats_acked = 1 ∧
    ((HeartbeatHandler.init.send_heartbeat 0).wait_ack_success 1).heartbeats_sent = 0 ∧
    ¬ ((HeartbeatHandler.init.send_heartbeat 0).wait_ack_success 1).heartbeats_acked ≤
        ((HeartbeatHandler.init.send_heartbeat 0).wait_ack_success 1).heartbeats_sent := by
  refine ⟨HBReach.ackOk 1 (HBReach.send 0 HBReach.init), rfl, rfl, by decide⟩

/-! ## Upgrade handshake (`src/snakecord/connection.py`,
`BaseConnection.connect` and `iter_headers`, lines 259-309)

The response's header block is modelled at the granularity the source
parses it: the list of CRLF-separated header lines (status line first,
terminating blank line and everything after the CRLF-CRLF terminator
excluded), each line a `List Char` of its bytes. -/

/-- Error outcomes of `BaseConnection.connect`.  `badWsHttpResponse`
models the source's `BadWsHttpResponse(field, expected, got)` (the
`BadUpgrade` kind of the spec); the other constructors model the
uncaught Python exceptions the parsing can raise (`IndexError` /
`ValueError` on a malformed status line, `ValueError` from `dict()` on
a colon-free header line, `AttributeError` from `None.decode()` when a
required header is absent). -/
inductive WsConnectError
  | badWsHttpResponse (field : List Char) (expected : List Char) (got : List Char)
  | malformedStatus
  | malformedHeader (line : List Char)
  | missingHeader (name : List Char)
deriving DecidableEq

/-- Python `bytes.strip()`: drop ASCII whitespace from both ends. -/
def strip_chars (cs : List Char) : List Char :=
  ((cs.dropWhile Char.isWhitespace).reverse.dropWhile Char.isWhitespace).reverse

/-- Python `bytes.lower()`. -/
def lower_chars (cs : List Char) : List Char := cs.map Char.toLower

/-- Python `data.split(b':', 1)`: split at the first colon only. -/
def split_once_colon : List Char → List (List Char)
  | [] => [[]]
  | c :: rest =>
    if c = ':' then [[], rest]
    else
      match split_once_colon rest with
      | [] => [[c]]
      | h :: t => (c :: h) :: t

/-- Python `bytes.split(b' ')`: split on every single space, keeping
empty pieces. -/
def split_spaces : List Char → List (List Char)
  | [] => [[]]
  | c :: rest =>
    if c = ' ' then [] :: split_spaces rest
    else
      match split_spaces rest with
      | [] => [[c]]
      | h :: t => (c :: h) :: t

/-- One yield of `BaseConnection.iter_headers` (connection.py
lines 259-267): `[value.strip().lower() for value in data.split(b':', 1)]`. -/
def iter_headers_item (line : List Char) : List (List Char) :=
  (split_once_colon line).map (fun v => lower_chars (strip_chars v))

/-- Python `int(...)` on the decoded status-code token: defined on
non-empty all-digit tokens, `none` models the `ValueError` otherwise. -/
def parse_int_chars (cs : List Char) : Option Nat :=
  if cs ≠ [] ∧ cs.all Char.isDigit then
    some (cs.foldl (fun a c => a * 10 + (c.toNat - 48)) 0)
  else none

/-- The `status, = next(headers)` / `status.split(b' ')[1]` sequence of
`connect` (connection.py lines 291-293): the status line must yield a
single (colon-free) item, whose second space-separated token is the
status code. -/
def status_token (statusLine : List Char) : Except WsConnectError (List Char) :=
  match iter_headers_item statusLine with
  | [status] =>
    match (split_spaces status).get? 1 with
    | some sc => .ok sc
    | none => .error .malformedStatus
  | _ => .error .malformedStatus

/-- The `headers = dict(headers)` step (connection.py line 301): every
remaining line must split at a colon into a name/value pair. -/
def headers_assoc : List (List Char) →
    Except WsConnectError (List (List Char × List Char))
  | [] => .ok []
  | line :: rest =>
    match iter_headers_item line with
    | [n, v] =>
      match headers_assoc rest with
      | .ok hs => .ok ((n, v) :: hs)
      | .error e => .error e
    | _ => .error (.malformedHeader line)

/-- Python `dict` lookup over the association list built by
`headers_assoc`: a later occurrence of a key overwrites an earlier
one. -/
def get_header (hs : List (List Char × List Char)) (name : List Char) :
    Option (List Char) :=
  hs.foldl (fun acc p => if p.1 = name then some p.2 else acc) none

/-- The response-validation logic of `BaseConnection.connect`
(connection.py lines 289-309): parse the status line, require status
code 101, then require `connection: upgrade` and `upgrade: websocket`
among the case-insensitively parsed headers, failing with
`BadWsHttpResponse(field, expected, got)` on each mismatch. -/
def connect_check (lines : List (List Char)) : Except WsConnectError Unit :=
  match lines with
  | [] => .error .malformedStatus
  | statusLine :: rest =>
    match status_token statusLine with
    | .error e => .error e
    | .ok sc =>
      match parse_int_chars sc with
      | none => .error .malformedStatus
      | some n =>
        if n ≠ 101 then
          .error (.badWsHttpResponse "status code".data "101".data sc)
        else
          match headers_assoc rest with
          | .error e => .error e
          | .ok hs =>
            match get_header hs "connection".data with
            | none => .error (.missingHeader "connection".data)
            | some c =>
              if c ≠ "upgrade".data then
                .error (.badWsHttpResponse "connection".data "upgrade".data c)
              else
                match get_header hs "upgrade".data with
                | none => .error (.missingHeader "upgrade".data)
                | some u =>
                  if u ≠ "websocket".data then
                    .error (.badWsHttpResponse "upgrade".data "websocket".data u)
                  else .ok ()

/-- C8: handshake rejection.  `connect` fails with
`BadWsHttpResponse(field, expected, got)` whenever the upgrade
response's status code is not 101 (in particular, a `200 OK` response
yields `BadWsHttpResponse("status code", "101", "200")` — the source
passes the status-code token, so `got` is the token `"200"`), or when
the case-insensitively parsed `connection` header is present but not
`"upgrade"`, or when the `upgrade` header is present but not
`"websocket"`. -/
theorem handshake_rejection :
    (∀ (sl : List Char) (rest : List (List Char)) (sc : List Char) (n : Nat),
      status_token sl = .ok sc → parse_int_chars sc = some n → n ≠ 101 →
      connect_check (sl :: rest) =
        .error (.badWsHttpResponse "status code".data "101".data sc)) ∧
    (∀ (sl : List Char) (rest : List (List Char)) (sc : List Char)
        (hs : List (List Char × List Char)) (c : List Char),
      status_token sl = .ok sc → parse_int_chars sc = some 101 →
      headers_assoc rest = .ok hs →
      get_header hs "connection".data = some c → c ≠ "upgrade".data →
      connect_check (sl :: rest) =
        .error (.badWsHttpResponse "connection".data "upgrade".data c)) ∧
    (∀ (sl : List Char) (rest : List (List Char)) (sc : List Char)
        (hs : List (List Char × List Char)) (u : List Char),
      status_token sl = .ok sc → parse_int_chars sc = some 101 →
      headers_assoc rest = .ok hs →
      get_header hs "connection".data = some "upgrade".data →
      get_header hs "upgrade".data = some u → u ≠ "websocket".data →
      connect_check (sl :: rest) =
        .error (.badWsHttpResponse "upgrade".data "websocket".data u)) ∧
    (connect_check ["HTTP/1.1 200 OK".data, "Connection: Upgrade".data,
        "Upgrade: websocket".data] =
      .error (.badWsHttpResponse "status code".data "101".data "200".data)) := by
  refine ⟨?_, ?_, ?_, by rfl⟩
  · intro sl rest sc n hst hn h101
    simp [connect_check, hst, hn, h101]
  · intro sl rest sc hs c hst hn hhs hc hne
    simp [connect_check, hst, hn, hhs, hc, hne]
  · intro sl rest sc hs u hst hn hhs hc hu hne
    simp [connect_check, hst, hn, hhs, hc, hu, hne]

/-- Witness for `handshake_rejection`, exercising all three rejection
paths on concrete responses: a `200 OK` status line, a
`connection: keep-alive` header, and an `upgrade: h2c` header. -/
theorem handshake_rejection_witness :
    (connect_check ["HTTP/1.1 200 OK".data] =
      .error (.badWsHttpResponse "status code".data "101".data "200".data)) ∧
    (connect_check ["HTTP/1.1 101 Switching Protocols".data,
        "Connection: keep-alive".data, "Upgrade: websocket".data] =
      .error (.badWsHttpResponse "connection".data "upgrade".data
        "keep-alive".data)) ∧
    (connect_check ["HTTP/1.1 101 Switching Protocols".data,
        "Connection: Upgrade".data, "Upgrade: h2c".data] =
      .error (.badWsHttpResponse "upgrade".data "websocket".data
        "h2c".data)) := by
  obtain ⟨h1, h2, h3, _⟩ := handshake_rejection
  refine ⟨?_, ?_, ?_⟩
  · exact h1 "HTTP/1.1 200 OK".data [] "200".data 200
      rfl rfl (by decide)
  · exact h2 "HTTP/1.1 101 Switching Protocols".data
      ["Connection: keep-alive".data, "Upgrade: websocket".data]
      "101".data
      [("connection".data, "keep-alive".data),
       ("upgrade".data, "websocket".data)]
      "keep-alive".data
      rfl rfl rfl rfl (by decide)
  · exact h3 "HTTP/1.1 101 Switching Protocols".data
      ["Connection: Upgrade".data, "Upgrade: h2c".data]
      "101".data
      [("connection".data, "upgrade".data), ("upgrade".data, "h2c".data)]
      "h2c".data
      rfl rfl rfl rfl rfl (by decide)

/-! ## Snowflake (`src/snakecord/utils.py`, lines 9-11 and 235-266) -/

/-- Models `SNOWFLAKE_MINIMUM_BIT_LENGTH` (utils.py line 9). -/
def SNOWFLAKE_MINIMUM_BIT_LENGTH : Nat := 51

/-- Models `SNOWFLAKE_MAXIMUM_BIT_LENGTH` (utils.py line 10). -/
def SNOWFLAKE_MAXIMUM_BIT_LENGTH : Nat := 111

/-- Models `DISCORD_EPOCH` (utils.py line 11), in milliseconds. -/
def DISCORD_EPOCH : Nat := 1420070400000

/-- Fuelled halving loop computing Python's `int.bit_length()` for
non-negative integers; `fuel = n` always suffices since
`bit_length n ≤ n` for every `n`. -/
def bit_length_fuel : Nat → Nat → Nat
  | 0, _ => 0
  | fuel + 1, n => if n = 0 then 0 else bit_length_fuel fuel (n / 2) + 1

/-- Python's `int.bit_length()`: the number of binary digits of `n`. -/
def bit_length (n : Nat) : Nat := bit_length_fuel n n

/-- The error raised by `Snowflake.__new__` on an out-of-range value
(`ValueError`; the spec's `BadValue` kind). -/
inductive SnowflakeError
  | badValue
deriving DecidableEq

/-- Models `Snowflake.__new__` (utils.py lines 238-250): accept the integer iff
its bit length lies in
`[SNOWFLAKE_MINIMUM_BIT_LENGTH, SNOWFLAKE_MAXIMUM_BIT_LENGTH]`,
otherwise raise `ValueError`. -/
def snowflake_new (n : Nat) : Except SnowflakeError Nat :=
  if SNOWFLAKE_MINIMUM_BIT_LENGTH ≤ bit_length n ∧
      bit_length n ≤ SNOWFLAKE_MAXIMUM_BIT_LENGTH then
    .ok n
  else
    .error .badValue

/-- Models `Snowflake.datetime` (utils.py lines 252-254): the POSIX timestamp
(in seconds, exact rational arithmetic) of
`datetime.fromtimestamp(((self >> 22) + DISCORD_EPOCH) / 1000)`. -/
def snowflake_datetime (n : Nat) : ℚ :=
  (((n >>> 22) + DISCORD_EPOCH : Nat) : ℚ) / 1000

/-- Models `Snowflake.worker_id` (utils.py lines 256-258). -/
def snowflake_worker_id (n : Nat) : Nat := (n &&& 0x3E0000) >>> 17

/-- Models `Snowflake.process_id` (utils.py lines 260-262). -/
def snowflake_process_id (n : Nat) : Nat := (n &&& 0x1F000) >>> 12

/-- Models `Snowflake.increment` (utils.py lines 264-266). -/
def snowflake_increment (n : Nat) : Nat := n &&& 0xFFF

/-- C9: snowflake timestamp decode.  For every integer whose bit length
lies within the valid bounds `[51, 111]`, construction succeeds and the
snowflake's `datetime` equals the timestamp
`((id >> 22) + 1420070400000) / 1000` seconds; construction from an
integer with bit length outside those bounds fails with the `BadValue`
error (`ValueError`). -/
theorem snowflake_datetime_spec (n : Nat) :
    (SNOWFLAKE_MINIMUM_BIT_LENGTH ≤ bit_length n →
      bit_length n ≤ SNOWFLAKE_MAXIMUM_BIT_LENGTH →
      snowflake_new n = .ok n ∧
      snowflake_datetime n = (((n >>> 22) + 1420070400000 : Nat) : ℚ) / 1000) ∧
    (bit_length n < SNOWFLAKE_MINIMUM_BIT_LENGTH ∨
      SNOWFLAKE_MAXIMUM_BIT_LENGTH < bit_length n →
      snowflake_new n = .error .badValue) := by
  constructor
  · intro h1 h2
    exact ⟨by simp [snowflake_new, h1, h2], rfl⟩
  · intro h
    rw [snowflake_new, if_neg]
    omega

/-- Witness for `snowflake_datetime_spec` at `n = 2^60` (bit length 61,
in range: construction succeeds and `datetime` matches the formula) and
at `n = 1` (bit length 1, out of range: construction fails). -/
theorem snowflake_datetime_spec_witness :
    (snowflake_new (2 ^ 60) = .ok (2 ^ 60) ∧
      snowflake_datetime (2 ^ 60) =
        (((2 ^ 60 >>> 22) + 1420070400000 : Nat) : ℚ) / 1000) ∧
    snowflake_new 1 = .error .badValue := by
  constructor
  · exact (snowflake_datetime_spec (2 ^ 60)).1 (by decide) (by decide)
  · exact (snowflake_datetime_spec 1).2 (by decide)
